import Mathlib

/-!
Verification development for the level-generation engine of the
`sourcecode_to_game` repository.  The algorithm is specified as Python
pseudocode in `docs/level_generation_algorithm.md`; the data model is the
TypeScript one in `frontend/src/types/index.ts`.  Every definition below is a
shallow embedding of one of those source fragments, except where a doc comment
starting with `Modelled from the spec:` marks a helper that the repository
source only names but never defines.

Numeric conventions: Python integers and floats are embedded as `Nat`/`Int`
and `ℚ`; Python code that can raise (`dict[key]` lookups, attribute access on
a missing field, division by `len([])`) is embedded as `Option`-returning
code.
-/

/-- The `NodeType` enum of `frontend/src/types/index.ts`. -/
inductive NodeType where
  | FUNCTION
  | METHOD
  | CLASS
deriving DecidableEq

/-- The `Difficulty` enum of `frontend/src/types/index.ts` (five ordered
tiers). -/
inductive Difficulty where
  | TUTORIAL
  | BASIC
  | INTERMEDIATE
  | ADVANCED
  | EXPERT
deriving DecidableEq

/-- Rank index of a difficulty tier; the Python code compares tiers with
`>=`, which the design documents as comparison of rank indices. -/
def Difficulty.rank : Difficulty → Nat
  | .TUTORIAL => 0
  | .BASIC => 1
  | .INTERMEDIATE => 2
  | .ADVANCED => 3
  | .EXPERT => 4

/-- The `ChallengeType` enum of `frontend/src/types/index.ts`. -/
inductive ChallengeType where
  | MULTIPLE_CHOICE
  | CODE_TRACING
  | FILL_BLANK
  | CODE_COMPLETION
  | DEBUGGING
  | ARCHITECTURE
deriving DecidableEq

/-- The `Parameter` interface of `frontend/src/types/index.ts`. -/
structure Parameter where
  name : String
  type_hint : Option String := none
  default_value : Option String := none
deriving DecidableEq

/-- The `CodeNode` interface of `frontend/src/types/index.ts`.

The declared interface has no `depends_on` field, yet
`calculate_difficulty` in `docs/level_generation_algorithm.md` reads
`graph.nodes[id].depends_on`.  The embedding therefore carries
`depends_on` as an `Option`: `none` is a node as actually declared by the
data model (the attribute access fails), `some l` is a node that happens to
carry the extra collection the classifier needs. -/
structure CodeNode where
  id : String
  name : String
  node_type : NodeType := .FUNCTION
  file_path : String := ""
  line_start : Nat := 0
  line_end : Nat := 0
  parameters : List Parameter := []
  return_type : Option String := none
  decorators : List String := []
  calls : List String := []
  called_by : List String := []
  docstring : Option String := none
  complexity : Nat := 0
  loc : Nat := 0
  is_async : Bool := false
  is_generator : Bool := false
  depends_on : Option (List String) := none
deriving DecidableEq

/-- The `CallEdge` interface of `frontend/src/types/index.ts`. -/
structure CallEdge where
  from_node : String
  to_node : String
  call_count : Nat := 1
deriving DecidableEq

/-- The `CallGraph` interface of `frontend/src/types/index.ts`:
`nodes` is a record keyed by node id, embedded as an association list. -/
structure CallGraph where
  nodes : List (String × CodeNode)
  edges : List CallEdge := []
  entry_points : List String
deriving DecidableEq

/-- Lookup `graph.nodes[id]`: Python raises `KeyError` on a missing id, so the
lookup is `Option`-valued. -/
def CallGraph.getNode (g : CallGraph) (id : String) : Option CodeNode :=
  g.nodes.lookup id

/-- Resolve every id of a chain in the graph (`graph.nodes[id]` for each
`id in chain`); `none` as soon as one lookup would raise. -/
def chainNodes (g : CallGraph) (chain : List String) : Option (List CodeNode) :=
  chain.mapM g.getNode

/-- Python truthiness of an optional string (`if node.docstring:`):
`None` and the empty string are falsy. -/
def pyTruthyStr : Option String → Bool
  | none => false
  | some s => !(s == "")

/-- Python `a or b` on an optional string: `b` when `a` is `None` or empty. -/
def pyOrStr (a : Option String) (b : String) : String :=
  match a with
  | none => b
  | some s => if s == "" then b else s

/-- Decimal digit character, `0`–`9` (only ever applied to values below
10). -/
def digitChar : Nat → Char
  | 0 => '0'
  | 1 => '1'
  | 2 => '2'
  | 3 => '3'
  | 4 => '4'
  | 5 => '5'
  | 6 => '6'
  | 7 => '7'
  | 8 => '8'
  | _ => '9'

/-- Python `str(n)` for a non-negative integer: the decimal numeral. -/
def natStr (n : Nat) : String :=
  if n = 0 then "0" else ⟨((Nat.digits 10 n).reverse.map digitChar)⟩

/-- Python `str(n)` for an integer: decimal numeral with a leading minus
sign when negative. -/
def intStr (n : Int) : String :=
  if n < 0 then "-" ++ natStr n.natAbs else natStr n.natAbs

/-- Entry-point-proximity part of `calculate_chain_importance`
(`docs/level_generation_algorithm.md`): the loop
`for i, node_id in enumerate(chain): score += 40 * (0.7 ** i)`,
as a function of the chain length. -/
def proximityScore (n : Nat) : ℚ :=
  (List.range n).foldl (fun s i => s + 40 * (7 / 10 : ℚ) ^ i) 0

/-- Embedding of `calculate_chain_importance(chain, graph)` of
`docs/level_generation_algorithm.md`.  The averages divide by `len(chain)`,
so an empty chain raises (`none`); a chain id missing from `graph.nodes`
raises (`none`). -/
def calculate_chain_importance (chain : List String) (graph : CallGraph) : Option ℚ :=
  if chain.isEmpty then none else
  (chainNodes graph chain).map (fun ns =>
    let proximity := proximityScore chain.length
    let avg_called_by : ℚ := ((ns.map (fun n => n.called_by.length)).sum : ℚ) / (chain.length : ℚ)
    let frequency_score : ℚ := min 30 (avg_called_by * 5)
    let avg_complexity : ℚ := ((ns.map (fun n => n.complexity)).sum : ℚ) / (chain.length : ℚ)
    let complexity_score : ℚ := min 20 avg_complexity
    let documented_nodes : Nat := (ns.filter (fun n => pyTruthyStr n.docstring)).length
    let doc_score : ℚ := ((documented_nodes : ℚ) / (chain.length : ℚ)) * 10
    proximity + frequency_score + complexity_score + doc_score)

/-- One step of the stable descending insertion sort embedding the Python
`chains.sort(reverse=True, key=lambda x: x[0])`: the element is inserted
before the first entry whose score it reaches, so entries with equal score
keep their original relative order. -/
def insertDesc (x : ℚ × List String) : List (ℚ × List String) → List (ℚ × List String)
  | [] => [x]
  | y :: ys => if x.1 ≥ y.1 then x :: y :: ys else y :: insertDesc x ys

/-- Stable sort by score, descending — the semantics of the Python
`list.sort(reverse=True, key=lambda x: x[0])` on `(score, chain)` pairs. -/
def sortByScoreDesc : List (ℚ × List String) → List (ℚ × List String)
  | [] => []
  | x :: xs => insertDesc x (sortByScoreDesc xs)

/-- Depth-bounded enumeration of simple paths: the path so far is `path`,
the node being visited is `cur`, and `fuel` is the number of further hops
allowed.  Every visited prefix is recorded as a chain; a call target
already on the path is skipped (cycle-freedom). -/
def chainsFrom (g : CallGraph) : Nat → List String → String → List (List String)
  | 0, path, cur => [path ++ [cur]]
  | fuel + 1, path, cur =>
    let p := path ++ [cur]
    p :: ((((g.getNode cur).map (fun n => n.calls)).getD []).filter
        (fun c => !(p.contains c))).flatMap (chainsFrom g fuel p)

/-- Modelled from the spec: `CallGraph.get_call_chain(entry_id, max_depth)`
is called by `identify_core_chains` but is not part of the repository
source.  Section 4.1 of the spec describes it: enumerate simple
(cycle-free) paths from the entry point by following `calls` edges, a path
stopping early when it would revisit a node already on it, with at most
`max_depth` nodes per chain. -/
def get_call_chain (g : CallGraph) (entry : String) (max_depth : Nat) : List (List String) :=
  match max_depth with
  | 0 => []
  | d + 1 => chainsFrom g d [] entry

/-- Embedding of `identify_core_chains(call_graph)` of
`docs/level_generation_algorithm.md`: collect the chains of every entry
point (`max_depth=5`), score each with `calculate_chain_importance`, sort
by score descending (the Python stable sort), and return the top 10 chains. -/
def identify_core_chains (g : CallGraph) : Option (List (List String)) :=
  let all := g.entry_points.flatMap (fun e => get_call_chain g e 5)
  (all.mapM (fun c => (calculate_chain_importance c g).map (fun s => (s, c)))).map
    (fun scored => ((sortByScoreDesc scored).take 10).map (fun p => p.2))

/-- Threshold mapping at the end of `calculate_difficulty`:
`<20` TUTORIAL, `<40` BASIC, `<60` INTERMEDIATE, `<80` ADVANCED, else
EXPERT. -/
def difficultyFromScore (score : ℚ) : Difficulty :=
  if score < 20 then .TUTORIAL
  else if score < 40 then .BASIC
  else if score < 60 then .INTERMEDIATE
  else if score < 80 then .ADVANCED
  else .EXPERT

/-- Embedding of `calculate_difficulty(chain, graph)` of
`docs/level_generation_algorithm.md`.  An empty chain divides by zero
(`none`); a missing node id raises (`none`); a chain node without the
`depends_on` collection raises `AttributeError` (`none`), since the
declared `CodeNode` model does not carry that field. -/
def calculate_difficulty (chain : List String) (graph : CallGraph) : Option Difficulty :=
  if chain.isEmpty then none else
  match chainNodes graph chain with
  | none => none
  | some ns =>
    match ns.mapM (fun n => n.depends_on) with
    | none => none
    | some deps =>
      let length_score : ℚ := min 20 ((chain.length : ℚ) * 4)
      let avg_complexity : ℚ := ((ns.map (fun n => n.complexity)).sum : ℚ) / (chain.length : ℚ)
      let complexity_score : ℚ := min 30 (avg_complexity * 2)
      let abstraction_sum : Nat := ns.foldl
        (fun s n => s + n.decorators.length * 3
          + (if n.is_async then 5 else 0) + (if n.is_generator then 5 else 0)) 0
      let abstraction_score : ℚ := min 25 (abstraction_sum : ℚ)
      let total_deps : Nat := (deps.map (fun d => d.length)).sum
      let dep_score : ℚ := min 25 ((total_deps : ℚ) * 2)
      some (difficultyFromScore (length_score + complexity_score + abstraction_score + dep_score))

/-- Embedding of `select_challenge_types(chain, difficulty, graph)` of
`docs/level_generation_algorithm.md`: start from MULTIPLE_CHOICE, append
each further type whose condition holds, truncate to the first 5.  The
average-complexity computation divides by `len(chain)` and looks every
chain id up in `graph.nodes`, so those failures yield `none`. -/
def select_challenge_types (chain : List String) (difficulty : Difficulty)
    (graph : CallGraph) : Option (List ChallengeType) :=
  if chain.isEmpty then none else
  (chainNodes graph chain).map (fun ns =>
    let avg_complexity : ℚ := ((ns.map (fun n => n.complexity)).sum : ℚ) / (chain.length : ℚ)
    let has_decorators : Bool := ns.any (fun n => !n.decorators.isEmpty)
    let cs : List ChallengeType :=
      [ChallengeType.MULTIPLE_CHOICE]
      ++ (if chain.length ≥ 3 then [ChallengeType.CODE_TRACING] else [])
      ++ (if has_decorators ∨ difficulty.rank ≥ Difficulty.rank .INTERMEDIATE
          then [ChallengeType.FILL_BLANK] else [])
      ++ (if difficulty.rank ≥ Difficulty.rank .INTERMEDIATE
          then [ChallengeType.CODE_COMPLETION] else [])
      ++ (if avg_complexity > 10 then [ChallengeType.DEBUGGING] else [])
      ++ (if difficulty.rank ≥ Difficulty.rank .ADVANCED
          then [ChallengeType.ARCHITECTURE] else [])
    cs.take 5)

/-- One entry of the `templates` list in `generate_multiple_choice`
(`docs/level_generation_algorithm.md`): a question, the correct option and
the distractor options. -/
structure MCTemplate where
  question : String
  correct : String
  distractors : List String
deriving DecidableEq

/-- First multiple-choice template: return type.  `node.return_type or
"None"` with four fixed distractors. -/
def mcReturnTemplate (node : CodeNode) : MCTemplate :=
  { question := "What does " ++ node.name ++ "() return?"
    correct := pyOrStr node.return_type "None"
    distractors := ["str", "dict", "list", "object"] }

/-- Second multiple-choice template: parameter count.
`str(len(node.parameters) + i)` for `i` in `[-1, 1, 2]` as distractors. -/
def mcParamTemplate (node : CodeNode) : MCTemplate :=
  { question := "How many parameters does " ++ node.name ++ "() accept?"
    correct := natStr node.parameters.length
    distractors := [intStr ((node.parameters.length : Int) - 1),
      intStr ((node.parameters.length : Int) + 1),
      intStr ((node.parameters.length : Int) + 2)] }

/-- Modelled from the spec: `generate_plausible_functions(graph)` is called
by the first-call template but is not in the repository source; section 4.4
of the spec describes its output as "other real node names from the graph".
It is modelled as the first three node names of the graph. -/
def generate_plausible_functions (g : CallGraph) : List String :=
  (g.nodes.map (fun p => p.1)).take 3

/-- Third multiple-choice template: first call target.
`list(node.calls)[0] if node.calls else "None"`, distractors drawn from the
graph. -/
def mcFirstCallTemplate (node : CodeNode) (g : CallGraph) : MCTemplate :=
  { question := "Which function does " ++ node.name ++ "() call first?"
    correct := (node.calls.head?).getD "None"
    distractors := generate_plausible_functions g }

/-- The `templates` list of `generate_multiple_choice`. -/
def mcTemplates (node : CodeNode) (g : CallGraph) : List MCTemplate :=
  [mcReturnTemplate node, mcParamTemplate node, mcFirstCallTemplate node g]

/-- Question payload of a challenge (the `question` record of the
`Challenge` interface, specialised per challenge type). -/
inductive QuestionPayload where
  | mc (prompt : String) (options : List String)
  | tracing (prompt : String) (sample_input : String) (steps : List (Nat × String))
  | generic (prompt : String)
deriving DecidableEq

/-- Answer payload of a challenge (the `answer` record of the `Challenge`
interface, specialised per challenge type). -/
inductive AnswerPayload where
  | key (value : String)
  | steps (vals : List (Nat × String × String))
  | generic (value : String)
deriving DecidableEq

/-- The `Challenge` interface of `frontend/src/types/index.ts` (fields the
generation pseudocode populates). -/
structure Challenge where
  ctype : ChallengeType
  question : QuestionPayload
  answer : AnswerPayload
  hints : List String := []
  points : Nat := 10
deriving DecidableEq

/-- Modelled from the spec: `create_mc_challenge(template)` is called by
`generate_multiple_choice` but is not in the repository source; section 4.4
of the spec says the challenge presents the question with the correct
option among the distractors and stores the correct option as the answer.
The options are assembled as the correct answer followed by the
distractors. -/
def create_mc_challenge (t : MCTemplate) : Challenge :=
  { ctype := .MULTIPLE_CHOICE
    question := .mc t.question (t.correct :: t.distractors)
    answer := .key t.correct }

/-- Embedding of `generate_multiple_choice(node, graph)` of
`docs/level_generation_algorithm.md`.  `template = random.choice(templates)`
draws one of the three templates from the Python global random state; the
draw is made explicit as the index `r % 3` of an external randomness
source `r`. -/
def generate_multiple_choice (node : CodeNode) (g : CallGraph) (r : Nat) : Challenge :=
  create_mc_challenge ((mcTemplates node g).getD (r % 3) (mcReturnTemplate node))

/-- Modelled from the spec: `generate_sample_input(entry, graph)` is called
by `generate_code_tracing` but is not in the repository source; it supplies
the sample input of the tracing question. -/
def generate_sample_input (entry : String) (_g : CallGraph) : String :=
  "sample input for " ++ entry

/-- Modelled from the spec: `compute_value(node_id)` is called by
`generate_code_tracing` but is not in the repository source; it supplies
the computed intermediate value of one tracing step. -/
def compute_value (node_id : String) : String :=
  "result of " ++ node_id

/-- Embedding of `generate_code_tracing(chain, graph)` of
`docs/level_generation_algorithm.md`: one blanked step per chain node in
the question, the same steps with their computed values as the answer. -/
def generate_code_tracing (chain : List String) (g : CallGraph) : Challenge :=
  { ctype := .CODE_TRACING
    question := .tracing
      ("Trace the execution from " ++ chain.headD "" ++ " to " ++ chain.getLastD "")
      (generate_sample_input (chain.headD "") g)
      (chain.enum.map (fun p => (p.1 + 1, p.2)))
    answer := .steps (chain.enum.map (fun p => (p.1 + 1, p.2, compute_value p.2))) }

/-- Modelled from the spec: the fill-blank, code-completion, debugging and
architecture generators rely on helpers (`extract_function_code`,
`identify_key_elements`, ...) that are not in the repository source;
section 4.4 of the spec only requires each to produce a question payload
(snippet plus prompt) and an answer payload for its challenge type.  They
are modelled as one generic generator keeping the requested type. -/
def generate_generic_challenge (t : ChallengeType) (chain : List String)
    (_g : CallGraph) : Challenge :=
  { ctype := t
    question := .generic ("Challenge for " ++ chain.headD "")
    answer := .generic "" }

/-- The `Level` interface of `frontend/src/types/index.ts`. -/
structure Level where
  id : String
  name : String
  description : String
  difficulty : Difficulty
  entry_function : String
  call_chain : List String
  code_snippet : String
  challenges : List Challenge
  objectives : List String
  xp_reward : Nat
  estimated_time : Nat
  prerequisites : List String
deriving DecidableEq

/-- Embedding of `generate_objectives(chain, graph)` of
`docs/level_generation_algorithm.md`: per-node pattern objectives, with the
chain-tracing objective inserted first, truncated to 3.  (The possessive in
the Python literal for the control-flow objective is rendered without the
apostrophe.) -/
def generate_objectives (chain : List String) (graph : CallGraph) : Option (List String) :=
  (chainNodes graph chain).map (fun ns =>
    let objectives := ns.flatMap (fun node =>
      (if !node.decorators.isEmpty
        then ["Understand " ++ node.decorators.headD "" ++ " decorator pattern"] else [])
      ++ (if node.is_async then ["Learn async/await pattern"] else [])
      ++ (if node.complexity > 15 then ["Master " ++ node.name ++ " control flow"] else []))
    (("Trace execution from " ++ chain.headD "" ++ " to " ++ chain.getLastD "")
      :: objectives).take 3)

/-- Modelled from the spec: `generate_level_name(chain, difficulty)` is not
in the repository source; it derives a display name from the chain. -/
def generate_level_name (chain : List String) (_d : Difficulty) : String :=
  "Understanding " ++ chain.headD ""

/-- Modelled from the spec: `generate_description(chain, graph)` is not in
the repository source; it derives a description from the chain. -/
def generate_description (chain : List String) (_g : CallGraph) : String :=
  "Learn the call chain starting at " ++ chain.headD ""

/-- Modelled from the spec: `extract_relevant_code(chain, graph)` is not in
the repository source; section 6 of the spec says the code snippet is
derived source text covering the chain, supplied by an external source-text
lookup.  It is modelled as the chain ids joined by newlines. -/
def extract_relevant_code (chain : List String) (_g : CallGraph) : String :=
  String.intercalate "\n" chain

/-- Modelled from the spec: `calculate_xp_reward(difficulty)` is not in the
repository source; section 4.5 of the spec gives a monotone tier table,
TUTORIAL=50 up to EXPERT=250. -/
def calculate_xp_reward (d : Difficulty) : Nat :=
  50 + 50 * d.rank

/-- Modelled from the spec: `estimate_time(challenges)` is not in the
repository source; section 4.5 of the spec requires a monotone function of
the number of challenges, in minutes. -/
def estimate_time (cs : List Challenge) : Nat :=
  5 + 5 * cs.length

/-- Modelled from the spec: `determine_prerequisites(i, levels)` is not in
the repository source; section 4.5 of the spec assigns the immediately
preceding level id exactly when the current chain overlaps the previous
chain nodes.  `i` is the 0-based index of the current level, so the
previous level carries id `level_i`. -/
def determine_prerequisites (i : Nat) (chain : List String)
    (prevChain : Option (List String)) : List String :=
  match prevChain with
  | none => []
  | some pc => if chain.any (fun n => pc.contains n) then ["level_" ++ natStr i] else []

/-- Loop body of `generate_levels`: build one `Level` per ranked chain, in
order, threading the 0-based index `i` and the previous chain.  The
pseudocode generates one challenge per selected type (the `node` given to
`generate_multiple_choice` is the chain entry node; other generator
branches are elided in the source as `# ... other types`); any raising
lookup aborts the run (`none`).  `r` is the external randomness source
consumed by `generate_multiple_choice`. -/
def buildLevels (g : CallGraph) (r : Nat → Nat) :
    List (List String) → Nat → Option (List String) → Option (List Level)
  | [], _, _ => some []
  | chain :: rest, i, prevChain =>
    match calculate_difficulty chain g with
    | none => none
    | some difficulty =>
      match select_challenge_types chain difficulty g with
      | none => none
      | some ctypes =>
        match g.getNode (chain.headD "") with
        | none => none
        | some node =>
          match generate_objectives chain g with
          | none => none
          | some objectives =>
            let challenges := ctypes.map (fun t =>
              match t with
              | .MULTIPLE_CHOICE => generate_multiple_choice node g (r i)
              | .CODE_TRACING => generate_code_tracing chain g
              | _ => generate_generic_challenge t chain g)
            let level : Level :=
              { id := "level_" ++ natStr (i + 1)
                name := generate_level_name chain difficulty
                description := generate_description chain g
                difficulty := difficulty
                entry_function := chain.headD ""
                call_chain := chain
                code_snippet := extract_relevant_code chain g
                challenges := challenges
                objectives := objectives
                xp_reward := calculate_xp_reward difficulty
                estimated_time := estimate_time challenges
                prerequisites := determine_prerequisites i chain prevChain }
            (buildLevels g r rest (i + 1) (some chain)).map (fun ls => level :: ls)

/-- Embedding of `generate_levels(call_graph, max_levels=10)` of
`docs/level_generation_algorithm.md`: rank the chains, then assemble one
level per chain for the top `max_levels` chains.  `r` is the external
randomness source consumed by the multiple-choice generator. -/
def generate_levels (g : CallGraph) (max_levels : Nat) (r : Nat → Nat) :
    Option (List Level) :=
  (identify_core_chains g).bind (fun core => buildLevels g r (core.take max_levels) 0 none)

/-- Level data without the generated challenge content: every field of
`Level` except that challenges are reduced to their types.  Used to state
which parts of `generate_levels` do not depend on the random template
draws. -/
structure LevelSkeleton where
  id : String
  name : String
  description : String
  difficulty : Difficulty
  entry_function : String
  call_chain : List String
  code_snippet : String
  challenge_types : List ChallengeType
  objectives : List String
  xp_reward : Nat
  estimated_time : Nat
  prerequisites : List String
deriving DecidableEq

/-- Project a level to its skeleton. -/
def Level.skeleton (l : Level) : LevelSkeleton :=
  { id := l.id
    name := l.name
    description := l.description
    difficulty := l.difficulty
    entry_function := l.entry_function
    call_chain := l.call_chain
    code_snippet := l.code_snippet
    challenge_types := l.challenges.map (fun c => c.ctype)
    objectives := l.objectives
    xp_reward := l.xp_reward
    estimated_time := l.estimated_time
    prerequisites := l.prerequisites }

/-- Abstraction contribution of one node as the claim states it: 3 points
per decorator, 5 if async, 5 if generator. -/
def abstractionSpec (n : CodeNode) : Nat :=
  n.decorators.length * 3 + (if n.is_async then 5 else 0) + (if n.is_generator then 5 else 0)

/-- Difficulty score without the dependency term, as the claim states it:
`min(20, 4*len(chain)) + min(30, 2*mean complexity) + min(25, sum of
abstraction points)`, over the resolved chain nodes. -/
def nonDepScore (ns : List CodeNode) : ℚ :=
  min 20 (4 * (ns.length : ℚ))
  + min 30 (2 * (((ns.map (fun n => n.complexity)).sum : ℚ) / (ns.length : ℚ)))
  + min 25 (((ns.map abstractionSpec).sum : ℚ))

/-- Full difficulty score as the claim states it: the non-dependency terms
plus `min(25, 2 * total size of the depends_on collections)`. -/
def difficultyScoreSpec (ns : List CodeNode) : ℚ :=
  nonDepScore ns
  + min 25 (2 * ((ns.map (fun n => (n.depends_on.getD []).length)).sum : ℚ))

/-- A minimal node: a function `f` with no parameters, no calls, no
decorators, not async, not a generator, complexity 0, carrying an empty
`depends_on` collection. -/
def nodeF : CodeNode :=
  { id := "f", name := "f", depends_on := some [] }

/-- Graph with the single entry point `f` and no edges (the Scenario A
graph of the spec). -/
def gA : CallGraph :=
  { nodes := [("f", nodeF)], entry_points := ["f"] }

/-- A node identical to `nodeF` except for its name, used for tie-break
experiments: node `b`. -/
def nodeB : CodeNode :=
  { id := "b", name := "b", depends_on := some [] }

/-- A node identical to `nodeF` except for its name: node `a`. -/
def nodeA : CodeNode :=
  { id := "a", name := "a", depends_on := some [] }

/-- Tie graph: two structurally identical entry points enumerated in the
order `b`, then `a`, so their single-node chains get equal importance
scores. -/
def gTie : CallGraph :=
  { nodes := [("b", nodeB), ("a", nodeA)], entry_points := ["b", "a"] }

/-- Cyclic graph: `a` calls `b` and `b` calls `a` (the recursive Scenario C
graph of the spec). -/
def gCyc : CallGraph :=
  { nodes :=
      [("a", { id := "a", name := "a", calls := ["b"], called_by := ["b"],
               depends_on := some [] }),
       ("b", { id := "b", name := "b", calls := ["a"], called_by := ["a"],
               depends_on := some [] })]
    entry_points := ["a"] }

/-- A node whose return type is the string `str`, one of the fixed
distractors of the return-type multiple-choice template. -/
def nodeStr : CodeNode :=
  { id := "g", name := "g", return_type := some "str", depends_on := some [] }

/-- A node without the `depends_on` collection, exactly as the declared
`CodeNode` data model describes nodes. -/
def nodeNoDeps : CodeNode :=
  { id := "h", name := "h" }

/-- Graph holding the node without `depends_on`. -/
def gNoDeps : CallGraph :=
  { nodes := [("h", nodeNoDeps)], entry_points := ["h"] }

/-- The single level that `generate_levels` produces on `gA`: the only part
depending on the randomness source `r` is the multiple-choice challenge. -/
def levelF (r : Nat → Nat) : Level :=
  { id := "level_" ++ natStr 1
    name := "Understanding f"
    description := "Learn the call chain starting at f"
    difficulty := .TUTORIAL
    entry_function := "f"
    call_chain := ["f"]
    code_snippet := "f"
    challenges := [generate_multiple_choice nodeF gA (r 0)]
    objectives := ["Trace execution from f to f"]
    xp_reward := 50
    estimated_time := 10
    prerequisites := [] }

theorem digitChar_injOn {d e : Nat} (hd : d < 10) (he : e < 10)
    (h : digitChar d = digitChar e) : d = e := by
  interval_cases d <;> interval_cases e <;> revert h <;> decide

theorem map_digitChar_inj : ∀ (l₁ l₂ : List Nat), (∀ d ∈ l₁, d < 10) →
    (∀ d ∈ l₂, d < 10) → l₁.map digitChar = l₂.map digitChar → l₁ = l₂
  | [], [], _, _, _ => rfl
  | [], _ :: _, _, _, h => by simp at h
  | _ :: _, [], _, _, h => by simp at h
  | a :: l₁, b :: l₂, h₁, h₂, h => by
    simp only [List.map_cons, List.cons.injEq] at h
    have ha : a = b := digitChar_injOn (h₁ a (by simp)) (h₂ b (by simp)) h.1
    have := map_digitChar_inj l₁ l₂ (fun d hd => h₁ d (by simp [hd]))
      (fun d hd => h₂ d (by simp [hd])) h.2
    simp [ha, this]

theorem natStr_inj {m n : Nat} (h : natStr m = natStr n) : m = n := by
  unfold natStr at h
  by_cases hm : m = 0 <;> by_cases hn : n = 0
  · omega
  · exfalso
    simp only [hm, eq_self_iff_true, if_true, if_neg hn] at h
    have hdata := congrArg String.data h
    have h0 : ("0" : String).data = ['0'] := rfl
    rw [h0] at hdata
    have : (Nat.digits 10 n).reverse.map digitChar = ['0'] := hdata.symm
    have hrev : (Nat.digits 10 n).reverse.map digitChar = ([0].map digitChar) := by
      simpa [digitChar] using this
    have := map_digitChar_inj _ _
      (fun d hd => Nat.digits_lt_base (by norm_num) (List.mem_reverse.mp hd))
      (by intro d hd; simp at hd; omega) hrev
    have hd0 : Nat.digits 10 n = [0] := by
      have := congrArg List.reverse this
      simpa using this
    have := Nat.ofDigits_digits 10 n
    rw [hd0] at this
    simp [Nat.ofDigits] at this
    exact hn this.symm
  · exfalso
    simp only [hn, eq_self_iff_true, if_true, if_neg hm] at h
    have hdata := congrArg String.data h
    have h0 : ("0" : String).data = ['0'] := rfl
    rw [h0] at hdata
    have : (Nat.digits 10 m).reverse.map digitChar = ['0'] := hdata
    have hrev : (Nat.digits 10 m).reverse.map digitChar = ([0].map digitChar) := by
      simpa [digitChar] using this
    have := map_digitChar_inj _ _
      (fun d hd => Nat.digits_lt_base (by norm_num) (List.mem_reverse.mp hd))
      (by intro d hd; simp at hd; omega) hrev
    have hd0 : Nat.digits 10 m = [0] := by
      have := congrArg List.reverse this
      simpa using this
    have := Nat.ofDigits_digits 10 m
    rw [hd0] at this
    simp [Nat.ofDigits] at this
    exact hm this.symm
  · simp only [if_neg hm, if_neg hn] at h
    have hdata := congrArg String.data h
    simp only [String.data] at hdata
    have := map_digitChar_inj _ _
      (fun d hd => Nat.digits_lt_base (by norm_num) (List.mem_reverse.mp hd))
      (fun d hd => Nat.digits_lt_base (by norm_num) (List.mem_reverse.mp hd)) hdata
    have hrev := congrArg List.reverse this
    simp only [List.reverse_reverse] at hrev
    exact Nat.digits.injective 10 hrev

theorem intStr_natCast (k : Nat) : intStr (k : Int) = natStr k := by
  unfold intStr
  rw [if_neg (by omega)]
  simp

theorem natStr_param_ne_distractors (n : Nat) :
    natStr n ≠ intStr ((n : Int) - 1) ∧ natStr n ≠ intStr ((n : Int) + 1) ∧
      natStr n ≠ intStr ((n : Int) + 2) := by
  refine ⟨?_, ?_, ?_⟩
  · match n with
    | 0 => decide
    | k + 1 =>
      have h1 : ((k + 1 : Nat) : Int) - 1 = (k : Int) := by push_cast; ring
      rw [h1, intStr_natCast]
      intro h
      exact absurd (natStr_inj h) (by omega)
  · have h1 : ((n : Nat) : Int) + 1 = ((n + 1 : Nat) : Int) := by push_cast; ring
    rw [h1, intStr_natCast]
    intro h
    exact absurd (natStr_inj h) (by omega)
  · have h1 : ((n : Nat) : Int) + 2 = ((n + 2 : Nat) : Int) := by push_cast; ring
    rw [h1, intStr_natCast]
    intro h
    exact absurd (natStr_inj h) (by omega)

theorem mapM_some_length {α β : Type} {f : α → Option β} :
    ∀ {l : List α} {bs : List β}, l.mapM f = some bs → bs.length = l.length := by
  intro l
  induction l with
  | nil =>
    intro bs h
    have h' : (some ([] : List β) : Option (List β)) = some bs := h
    simp [← Option.some_inj.mp h']
  | cons a t ih =>
    intro bs h
    rw [List.mapM_cons] at h
    cases hfa : f a with
    | none => rw [hfa] at h; simp at h
    | some b =>
      rw [hfa] at h
      cases ht : t.mapM f with
      | none => rw [ht] at h; simp at h
      | some bs' =>
        rw [ht] at h
        simp at h
        rw [← h]
        simp [ih ht]

theorem mapM_none_of_mem {α β : Type} {f : α → Option β} :
    ∀ {l : List α}, (∃ a ∈ l, f a = none) → l.mapM f = none := by
  intro l
  induction l with
  | nil => rintro ⟨a, ha, _⟩; simp at ha
  | cons a t ih =>
    rintro ⟨b, hb, hfb⟩
    rw [List.mapM_cons]
    rcases List.mem_cons.mp hb with rfl | hbt
    · rw [hfb]; rfl
    · cases hfa : f a with
      | none => rfl
      | some c => rw [ih ⟨b, hbt, hfb⟩]; rfl

theorem foldl_add_eq_sum (g : CodeNode → Nat) :
    ∀ (l : List CodeNode) (s : Nat), l.foldl (fun acc n => acc + g n) s = s + (l.map g).sum
  | [], s => by simp
  | n :: t, s => by
    simp only [List.foldl_cons, List.map_cons, List.sum_cons]
    rw [foldl_add_eq_sum g t (s + g n)]
    omega

theorem proximityScore_succ (n : Nat) :
    proximityScore (n + 1) = proximityScore n + 40 * (7 / 10 : ℚ) ^ n := by
  unfold proximityScore
  rw [List.range_succ, List.foldl_append]
  rfl

theorem proximityScore_eq_sum (n : Nat) :
    proximityScore n = ∑ i ∈ Finset.range n, 40 * (7 / 10 : ℚ) ^ i := by
  induction n with
  | zero => rfl
  | succ k ih => rw [proximityScore_succ, Finset.sum_range_succ, ih]

theorem proximityScore_closed (n : Nat) :
    proximityScore n = 400 / 3 * (1 - (7 / 10 : ℚ) ^ n) := by
  induction n with
  | zero => norm_num [proximityScore]
  | succ k ih =>
    rw [proximityScore_succ, ih, pow_succ]
    ring

theorem proximityScore_le (n : Nat) : proximityScore n ≤ 400 / 3 := by
  rw [proximityScore_closed]
  have h : (0 : ℚ) ≤ (7 / 10 : ℚ) ^ n := by positivity
  linarith

theorem proximityScore_gt_of_two_le {n : Nat} (h : 2 ≤ n) : 40 < proximityScore n := by
  rw [proximityScore_closed]
  have h2 : ((7 : ℚ) / 10) ^ n ≤ (7 / 10 : ℚ) ^ 2 :=
    pow_le_pow_of_le_one (by norm_num) (by norm_num) h
  have h3 : ((7 : ℚ) / 10) ^ 2 = 49 / 100 := by norm_num
  linarith

theorem insertDesc_filter_eq (x : ℚ × List String) (s : ℚ) (hx : x.1 = s) :
    ∀ l : List (ℚ × List String),
      (insertDesc x l).filter (fun y => decide (y.1 = s)) =
        x :: l.filter (fun y => decide (y.1 = s))
  | [] => by simp [insertDesc, hx]
  | y :: ys => by
    unfold insertDesc
    by_cases hxy : x.1 ≥ y.1
    · rw [if_pos hxy]
      simp [List.filter_cons, hx]
    · rw [if_neg hxy]
      have hy : ¬ (y.1 = s) := by
        intro hys
        exact hxy (le_of_eq (hys.trans hx.symm))
      simp only [List.filter_cons, decide_eq_true_eq, if_neg hy,
        insertDesc_filter_eq x s hx ys]

theorem insertDesc_filter_ne (x : ℚ × List String) (s : ℚ) (hx : ¬ (x.1 = s)) :
    ∀ l : List (ℚ × List String),
      (insertDesc x l).filter (fun y => decide (y.1 = s)) =
        l.filter (fun y => decide (y.1 = s))
  | [] => by simp [insertDesc, hx]
  | y :: ys => by
    unfold insertDesc
    by_cases hxy : x.1 ≥ y.1
    · rw [if_pos hxy]
      simp [List.filter_cons, hx]
    · rw [if_neg hxy]
      simp only [List.filter_cons, insertDesc_filter_ne x s hx ys]

theorem chainsFrom_sound (g : CallGraph) :
    ∀ (fuel : Nat) (path : List String) (cur : String), path.Nodup → cur ∉ path →
      ∀ c ∈ chainsFrom g fuel path cur,
        c ≠ [] ∧ c.Nodup ∧ c.length ≤ path.length + fuel + 1 := by
  intro fuel
  induction fuel with
  | zero =>
    intro path cur hnd hcur c hc
    simp only [chainsFrom, List.mem_singleton] at hc
    subst hc
    refine ⟨by simp, ?_, by simp⟩
    simp [List.nodup_append, hnd, hcur]
  | succ k ih =>
    intro path cur hnd hcur c hc
    simp only [chainsFrom, List.mem_cons] at hc
    have hpnd : (path ++ [cur]).Nodup := by
      simp [List.nodup_append, hnd, hcur]
    rcases hc with rfl | hc
    · exact ⟨by simp, hpnd, by simp only [List.length_append, List.length_singleton]; omega⟩
    · rw [List.mem_flatMap] at hc
      obtain ⟨nxt, hnxt, hcc⟩ := hc
      have hnotin : nxt ∉ path ++ [cur] := by
        have := List.of_mem_filter hnxt
        simpa using this
      have := ih (path ++ [cur]) nxt hpnd hnotin c hcc
      refine ⟨this.1, this.2.1, ?_⟩
      have := this.2.2
      simp only [List.length_append, List.length_singleton] at this
      omega

theorem generated_ctype (node : CodeNode) (g : CallGraph) (ri : Nat)
    (chain : List String) (t : ChallengeType) :
    (match t with
      | .MULTIPLE_CHOICE => generate_multiple_choice node g ri
      | .CODE_TRACING => generate_code_tracing chain g
      | _ => generate_generic_challenge t chain g).ctype = t := by
  cases t <;> rfl

theorem buildLevels_sound (g : CallGraph) (r : Nat → Nat) :
    ∀ (cs : List (List String)) (i : Nat) (prev : Option (List String)) (ls : List Level),
      buildLevels g r cs i prev = some ls →
        ls.length = cs.length ∧
        ∀ lvl ∈ ls, select_challenge_types lvl.call_chain lvl.difficulty g =
          some (lvl.challenges.map (fun c => c.ctype)) := by
  intro cs
  induction cs with
  | nil =>
    intro i prev ls h
    simp only [buildLevels, Option.some_inj] at h
    simp [← h]
  | cons chain rest ih =>
    intro i prev ls h
    rw [buildLevels] at h
    cases h1 : calculate_difficulty chain g with
    | none => rw [h1] at h; simp at h
    | some difficulty =>
      rw [h1] at h
      dsimp only at h
      cases h2 : select_challenge_types chain difficulty g with
      | none => rw [h2] at h; simp at h
      | some ctypes =>
        rw [h2] at h
        dsimp only at h
        cases h3 : g.getNode (chain.headD "") with
        | none => rw [h3] at h; simp at h
        | some node =>
          rw [h3] at h
          dsimp only at h
          cases h4 : generate_objectives chain g with
          | none => rw [h4] at h; simp at h
          | some objectives =>
            rw [h4] at h
            dsimp only at h
            simp only [Option.map_eq_some'] at h
            obtain ⟨ls', hrest, hcons⟩ := h
            obtain ⟨hlen, htypes⟩ := ih (i + 1) (some chain) ls' hrest
            subst hcons
            refine ⟨by simp [hlen], ?_⟩
            intro lvl hlvl
            rcases List.mem_cons.mp hlvl with rfl | hmem
            · simp only [List.map_map]
              have hid : ctypes.map ((fun c => c.ctype) ∘ (fun t =>
                  (match t with
                    | .MULTIPLE_CHOICE => generate_multiple_choice node g (r i)
                    | .CODE_TRACING => generate_code_tracing chain g
                    | _ => generate_generic_challenge t chain g))) = ctypes := by
                rw [List.map_congr_left (fun t _ => ?_), List.map_id]
                exact generated_ctype node g (r i) chain t
              rw [hid]
              exact h2
            · exact htypes lvl hmem

theorem buildLevels_skeleton (g : CallGraph) (r₁ r₂ : Nat → Nat) :
    ∀ (cs : List (List String)) (i : Nat) (prev : Option (List String)),
      (buildLevels g r₁ cs i prev).map (List.map Level.skeleton) =
        (buildLevels g r₂ cs i prev).map (List.map Level.skeleton) := by
  intro cs
  induction cs with
  | nil => intro i prev; rfl
  | cons chain rest ih =>
    intro i prev
    rw [buildLevels, buildLevels]
    cases h1 : calculate_difficulty chain g with
    | none => rfl
    | some difficulty =>
      dsimp only
      cases h2 : select_challenge_types chain difficulty g with
      | none => rfl
      | some ctypes =>
        dsimp only
        cases h3 : g.getNode (chain.headD "") with
        | none => rfl
        | some node =>
          dsimp only
          cases h4 : generate_objectives chain g with
          | none => rfl
          | some objectives =>
            dsimp only
            have ih' := ih (i + 1) (some chain)
            cases hb1 : buildLevels g r₁ rest (i + 1) (some chain) with
            | none =>
              cases hb2 : buildLevels g r₂ rest (i + 1) (some chain) with
              | none => rfl
              | some ls₂ => rw [hb1, hb2] at ih'; simp at ih'
            | some ls₁ =>
              cases hb2 : buildLevels g r₂ rest (i + 1) (some chain) with
              | none => rw [hb1, hb2] at ih'; simp at ih'
              | some ls₂ =>
                rw [hb1, hb2] at ih'
                simp only [Option.map_some', Option.some_inj] at ih'
                simp only [hb1, hb2, Option.map_some', Option.some_inj,
                  List.map_cons]
                refine congrArg₂ List.cons ?_ ih'
                simp only [Level.skeleton, estimate_time, List.map_map,
                  List.length_map, LevelSkeleton.mk.injEq]
                simp only [true_and, and_true, Function.comp_def]
                rw [List.map_congr_left (fun t _ => generated_ctype node g (r₁ i) chain t),
                  List.map_congr_left (fun t _ => generated_ctype node g (r₂ i) chain t)]

theorem mapM_some_of_forall {α β : Type} {f : α → Option β} (d : β) :
    ∀ {l : List α}, (∀ a ∈ l, f a ≠ none) →
      l.mapM f = some (l.map (fun a => (f a).getD d)) := by
  intro l
  induction l with
  | nil => intro _; rfl
  | cons a t ih =>
    intro hall
    rw [List.mapM_cons]
    cases hfa : f a with
    | none => exact absurd hfa (hall a (by simp))
    | some b =>
      rw [ih (fun x hx => hall x (by simp [hx]))]
      simp [hfa]

theorem abstraction_foldl (ns : List CodeNode) :
    ns.foldl (fun s n => s + n.decorators.length * 3
      + (if n.is_async then 5 else 0) + (if n.is_generator then 5 else 0)) 0 =
    (ns.map abstractionSpec).sum := by
  have h : (fun (s : Nat) n => s + n.decorators.length * 3
      + (if n.is_async then 5 else 0) + (if n.is_generator then 5 else 0)) =
      (fun (s : Nat) n => s + abstractionSpec n) := by
    funext s n
    unfold abstractionSpec
    omega
  rw [h, foldl_add_eq_sum abstractionSpec ns 0]
  omega

theorem difficultyFromScore_iff (s : ℚ) :
    (difficultyFromScore s = .TUTORIAL ↔ s < 20) ∧
    (difficultyFromScore s = .BASIC ↔ 20 ≤ s ∧ s < 40) ∧
    (difficultyFromScore s = .INTERMEDIATE ↔ 40 ≤ s ∧ s < 60) ∧
    (difficultyFromScore s = .ADVANCED ↔ 60 ≤ s ∧ s < 80) ∧
    (difficultyFromScore s = .EXPERT ↔ 80 ≤ s) := by
  unfold difficultyFromScore
  split_ifs with h1 h2 h3 h4 <;>
    refine ⟨?_, ?_, ?_, ?_, ?_⟩ <;> constructor <;> intro h <;>
    first
      | rfl
      | linarith
      | (exact absurd h (by decide))
      | (constructor <;> linarith)

theorem calculate_difficulty_eq_spec (chain : List String) (g : CallGraph)
    (ns : List CodeNode) (hchain : chain ≠ []) (hns : chainNodes g chain = some ns)
    (hdep : ∀ n ∈ ns, n.depends_on ≠ none) :
    calculate_difficulty chain g = some (difficultyFromScore (difficultyScoreSpec ns)) := by
  have hlen : ns.length = chain.length := mapM_some_length hns
  unfold calculate_difficulty
  rw [if_neg (by simpa using hchain)]
  rw [hns]
  dsimp only
  rw [mapM_some_of_forall [] hdep]
  dsimp only
  congr 2
  unfold difficultyScoreSpec nonDepScore
  rw [abstraction_foldl]
  simp only [List.map_map, Function.comp_def, hlen]
  push_cast
  simp only [List.map_map, Function.comp_def]
  ring_nf

theorem ite_sublist {c : Prop} [Decidable c] (x : ChallengeType) :
    List.Sublist (if c then [x] else []) [x] := by
  split <;> simp

theorem select_types_sound (chain : List String) (difficulty : Difficulty)
    (g : CallGraph) (l : List ChallengeType)
    (h : select_challenge_types chain difficulty g = some l) :
    l ≠ [] ∧ l.length ≤ 5 ∧ l.Nodup ∧ ChallengeType.MULTIPLE_CHOICE ∈ l := by
  unfold select_challenge_types at h
  by_cases he : chain.isEmpty
  · rw [if_pos he] at h; simp at h
  · rw [if_neg he] at h
    rw [Option.map_eq_some'] at h
    obtain ⟨ns, hns, hl⟩ := h
    rw [← hl]
    dsimp only
    have hcons : [ChallengeType.MULTIPLE_CHOICE]
        ++ (if chain.length ≥ 3 then [ChallengeType.CODE_TRACING] else [])
        ++ (if (ns.any fun n => !n.decorators.isEmpty) = true
              ∨ difficulty.rank ≥ Difficulty.rank .INTERMEDIATE
            then [ChallengeType.FILL_BLANK] else [])
        ++ (if difficulty.rank ≥ Difficulty.rank .INTERMEDIATE
            then [ChallengeType.CODE_COMPLETION] else [])
        ++ (if ((ns.map (fun n => n.complexity)).sum : ℚ) / (chain.length : ℚ) > 10
            then [ChallengeType.DEBUGGING] else [])
        ++ (if difficulty.rank ≥ Difficulty.rank .ADVANCED
            then [ChallengeType.ARCHITECTURE] else []) =
        ChallengeType.MULTIPLE_CHOICE ::
          ((if chain.length ≥ 3 then [ChallengeType.CODE_TRACING] else [])
          ++ (if (ns.any fun n => !n.decorators.isEmpty) = true
                ∨ difficulty.rank ≥ Difficulty.rank .INTERMEDIATE
              then [ChallengeType.FILL_BLANK] else [])
          ++ (if difficulty.rank ≥ Difficulty.rank .INTERMEDIATE
              then [ChallengeType.CODE_COMPLETION] else [])
          ++ (if ((ns.map (fun n => n.complexity)).sum : ℚ) / (chain.length : ℚ) > 10
              then [ChallengeType.DEBUGGING] else [])
          ++ (if difficulty.rank ≥ Difficulty.rank .ADVANCED
              then [ChallengeType.ARCHITECTURE] else [])) := by
      simp [List.append_assoc]
    have hsub : List.Sublist
        ([ChallengeType.MULTIPLE_CHOICE]
        ++ (if chain.length ≥ 3 then [ChallengeType.CODE_TRACING] else [])
        ++ (if (ns.any fun n => !n.decorators.isEmpty) = true
              ∨ difficulty.rank ≥ Difficulty.rank .INTERMEDIATE
            then [ChallengeType.FILL_BLANK] else [])
        ++ (if difficulty.rank ≥ Difficulty.rank .INTERMEDIATE
            then [ChallengeType.CODE_COMPLETION] else [])
        ++ (if ((ns.map (fun n => n.complexity)).sum : ℚ) / (chain.length : ℚ) > 10
            then [ChallengeType.DEBUGGING] else [])
        ++ (if difficulty.rank ≥ Difficulty.rank .ADVANCED
            then [ChallengeType.ARCHITECTURE] else []))
        ([ChallengeType.MULTIPLE_CHOICE] ++ [ChallengeType.CODE_TRACING]
          ++ [ChallengeType.FILL_BLANK] ++ [ChallengeType.CODE_COMPLETION]
          ++ [ChallengeType.DEBUGGING] ++ [ChallengeType.ARCHITECTURE]) :=
      (((((List.Sublist.refl _).append (ite_sublist _)).append
        (ite_sublist _)).append (ite_sublist _)).append (ite_sublist _)).append
        (ite_sublist _)
    refine ⟨?_, ?_, ?_, ?_⟩
    · rw [hcons, List.take_succ_cons]
      simp
    · simp [List.length_take]
    · exact ((List.take_sublist _ _).trans hsub).nodup (by decide)
    · rw [hcons, List.take_succ_cons]
      exact List.mem_cons_self _ _

theorem importance_f : calculate_chain_importance ["f"] gA = some 40 := by
  simp [calculate_chain_importance, chainNodes, CallGraph.getNode, nodeF, gA,
    proximityScore, List.range, List.range.loop, pyTruthyStr,
    List.mapM, List.mapM.loop, List.lookup]

theorem chains_gA : identify_core_chains gA = some [["f"]] := by
  have h1 : gA.entry_points.flatMap (fun e => get_call_chain gA e 5) = [["f"]] := by decide
  have h2 : ([["f"]].mapM (fun c => (calculate_chain_importance c gA).map (fun s => (s, c))))
      = some [((40 : ℚ), ["f"])] := by
    rw [List.mapM_cons, importance_f]
    rfl
  unfold identify_core_chains
  rw [h1]
  dsimp only
  rw [h2]
  rfl

theorem diff_f : calculate_difficulty ["f"] gA = some .TUTORIAL := by
  norm_num [calculate_difficulty, chainNodes, CallGraph.getNode, nodeF, gA,
    difficultyFromScore, List.mapM, List.mapM.loop, List.lookup]

theorem select_f : select_challenge_types ["f"] .TUTORIAL gA = some [.MULTIPLE_CHOICE] := by
  simp [select_challenge_types, chainNodes, CallGraph.getNode, nodeF, gA, Difficulty.rank,
    List.mapM, List.mapM.loop, List.lookup]

theorem digits_ten_one : Nat.digits 10 1 = [1] := by
  rw [Nat.digits_def' (by norm_num : (1:ℕ) < 10) (by norm_num : 0 < 1)]
  norm_num

theorem natStr_one : natStr 1 = "1" := by
  unfold natStr
  rw [if_neg (by norm_num), digits_ten_one]
  decide

theorem objectives_f : generate_objectives ["f"] gA = some ["Trace execution from f to f"] := by
  decide

theorem getNode_f : gA.getNode "f" = some nodeF := by decide

theorem gen_gA (r : Nat → Nat) : generate_levels gA 10 r = some [levelF r] := by
  unfold levelF
  unfold generate_levels
  rw [chains_gA]
  show buildLevels gA r [["f"]] 0 none = _
  rw [buildLevels, diff_f]
  dsimp only
  rw [select_f]
  dsimp only
  rw [show gA.getNode (["f"].headD "") = some nodeF from getNode_f]
  dsimp only
  rw [objectives_f]
  dsimp only
  rw [show buildLevels gA r [] (0 + 1) (some ["f"]) = some [] from rfl]
  rfl

theorem importance_b : calculate_chain_importance ["b"] gTie = some 40 := by
  simp [calculate_chain_importance, chainNodes, CallGraph.getNode, nodeB, gTie,
    proximityScore, List.range, List.range.loop, pyTruthyStr,
    List.mapM, List.mapM.loop, List.lookup]

theorem importance_a : calculate_chain_importance ["a"] gTie = some 40 := by
  simp [calculate_chain_importance, chainNodes, CallGraph.getNode, nodeA, gTie,
    proximityScore, List.range, List.range.loop, pyTruthyStr,
    List.mapM, List.mapM.loop, List.lookup]

theorem chains_gTie : identify_core_chains gTie = some [["b"], ["a"]] := by
  have h1 : gTie.entry_points.flatMap (fun e => get_call_chain gTie e 5) = [["b"], ["a"]] := by
    decide
  have h2 : ([["b"], ["a"]].mapM
      (fun c => (calculate_chain_importance c gTie).map (fun s => (s, c))))
      = some [((40 : ℚ), ["b"]), ((40 : ℚ), ["a"])] := by
    rw [List.mapM_cons, importance_b, List.mapM_cons, importance_a]
    rfl
  have h3 : sortByScoreDesc [((40 : ℚ), ["b"]), ((40 : ℚ), ["a"])]
      = [((40 : ℚ), ["b"]), ((40 : ℚ), ["a"])] := by
    simp [sortByScoreDesc, insertDesc]
  unfold identify_core_chains
  rw [h1]
  dsimp only
  rw [h2]
  simp [h3]

/-- Claim C1 (counterexample): `generate_levels` is not deterministic in the
graph and parameters alone — on the same graph `gA` with the same
`max_levels`, two different draws of the multiple-choice template (the
global `random.choice` state) give different outputs. -/
theorem C1_counterexample :
    generate_levels gA 10 (fun _ => 0) ≠ generate_levels gA 10 (fun _ => 1) := by
  intro h
  rw [gen_gA, gen_gA] at h
  have h2 := congrArg (fun o => Option.map (List.map (fun l =>
    l.challenges.map (fun c =>
      match c.question with
      | .mc p _ => p
      | .tracing p _ _ => p
      | .generic p => p))) o) h
  exact absurd h2 (by decide)

/-- Claim C1 (amended): `generate_levels` is deterministic once the random
template draws are fixed; for any two randomness sources the outputs agree
on everything except the multiple-choice challenge content — the level
skeletons (ids, names, difficulty, chains, challenge types, objectives,
rewards, times, prerequisites) coincide. -/
theorem C1_amended (g : CallGraph) (n : Nat) (r₁ r₂ : Nat → Nat) :
    (generate_levels g n r₁).map (List.map Level.skeleton) =
      (generate_levels g n r₂).map (List.map Level.skeleton) := by
  unfold generate_levels
  cases h : identify_core_chains g with
  | none => rfl
  | some core =>
    dsimp only [Option.bind]
    exact buildLevels_skeleton g r₁ r₂ (core.take n) 0 none

/-- Claim C2 (counterexample): `select_challenge_types` can return fewer
than 3 types — a single-node tutorial chain gets only MULTIPLE_CHOICE. -/
theorem C2_counterexample :
    select_challenge_types ["f"] .TUTORIAL gA = some [.MULTIPLE_CHOICE] ∧
      ([ChallengeType.MULTIPLE_CHOICE] : List ChallengeType).length < 3 :=
  ⟨select_f, by decide⟩

/-- Claim C2 (amended): `select_challenge_types` returns an ordered list of
1 to 5 distinct challenge types — never empty, never more than 5, no type
twice, always containing MULTIPLE_CHOICE; the 3-type minimum is not
enforced. -/
theorem C2_amended (chain : List String) (difficulty : Difficulty) (g : CallGraph)
    (l : List ChallengeType) (h : select_challenge_types chain difficulty g = some l) :
    l ≠ [] ∧ l.length ≤ 5 ∧ l.Nodup ∧ ChallengeType.MULTIPLE_CHOICE ∈ l :=
  select_types_sound chain difficulty g l h

/-- Witness for C2_amended at the Scenario A graph. -/
theorem C2_witness :
    ([ChallengeType.MULTIPLE_CHOICE] : List ChallengeType) ≠ [] ∧
    ([ChallengeType.MULTIPLE_CHOICE] : List ChallengeType).length ≤ 5 ∧
    ([ChallengeType.MULTIPLE_CHOICE] : List ChallengeType).Nodup ∧
    ChallengeType.MULTIPLE_CHOICE ∈ ([ChallengeType.MULTIPLE_CHOICE] : List ChallengeType) :=
  C2_amended ["f"] .TUTORIAL gA [.MULTIPLE_CHOICE] select_f

/-- Claim C3 (counterexample): on a node whose return type is `str`, the
return-type template gives the multiple-choice challenge 5 options, not 4,
and the distractor `str` duplicates the correct answer. -/
theorem C3_counterexample :
    (generate_multiple_choice nodeStr gA 0).question =
      QuestionPayload.mc "What does g() return?" ["str", "str", "dict", "list", "object"] ∧
    (mcReturnTemplate nodeStr).distractors.length = 4 ∧
    (mcReturnTemplate nodeStr).correct ∈ (mcReturnTemplate nodeStr).distractors := by
  refine ⟨?_, by decide, by decide⟩
  decide

/-- Claim C3 (amended): the parameter-count template has exactly 3
distractors, none equal to its correct answer; the return-type template has
4 fixed distractors (so 5 options), and whenever the node return type is
one of the fixed distractor strings the correct answer duplicates a
distractor. -/
theorem C3_amended (node : CodeNode) (_g : CallGraph) :
    (mcParamTemplate node).distractors.length = 3 ∧
    (mcParamTemplate node).correct ∉ (mcParamTemplate node).distractors ∧
    (mcReturnTemplate node).distractors.length = 4 ∧
    (∀ s, node.return_type = some s → s ∈ ["str", "dict", "list", "object"] →
      (mcReturnTemplate node).correct = s ∧
      (mcReturnTemplate node).correct ∈ (mcReturnTemplate node).distractors) := by
  refine ⟨rfl, ?_, rfl, ?_⟩
  · obtain ⟨h1, h2, h3⟩ := natStr_param_ne_distractors node.parameters.length
    simp only [mcParamTemplate, List.mem_cons, List.mem_singleton, List.not_mem_nil]
    push_neg
    exact ⟨h1, h2, h3, not_false⟩
  · intro s hs hmem
    have hne : s ≠ "" := by
      simp only [List.mem_cons, List.not_mem_nil, or_false] at hmem
      rcases hmem with rfl | rfl | rfl | rfl <;> decide
    have hcor : (mcReturnTemplate node).correct = s := by
      simp [mcReturnTemplate, pyOrStr, hs, hne]
    exact ⟨hcor, by rw [hcor]; exact hmem⟩

/-- Witness for C3_amended at the node whose return type is `str`. -/
theorem C3_witness :
    (mcParamTemplate nodeStr).distractors.length = 3 ∧
    (mcReturnTemplate nodeStr).correct = "str" :=
  ⟨(C3_amended nodeStr gA).1, ((C3_amended nodeStr gA).2.2.2 "str" rfl (by decide)).1⟩

/-- Claim C4 (counterexample): the entry-proximity component for a chain of
length 2 is 68, exceeding the claimed 40-point cap. -/
theorem C4_counterexample : 40 < proximityScore 2 ∧ proximityScore 2 = 68 := by
  have h : proximityScore 2 = 68 := by
    norm_num [proximityScore, List.range, List.range.loop]
  exact ⟨by rw [h]; norm_num, h⟩

/-- Claim C4 (amended): the entry-proximity component equals the geometric
sum of `40 * 0.7 ^ i` over the chain positions, is bounded by 400/3 (not by
40), equals 40 exactly for single-node chains, and strictly exceeds 40 for
every chain of length at least 2. -/
theorem C4_amended (n : Nat) :
    proximityScore n = ∑ i ∈ Finset.range n, 40 * (7 / 10 : ℚ) ^ i ∧
    proximityScore n ≤ 400 / 3 ∧
    (2 ≤ n → 40 < proximityScore n) ∧
    (n = 1 → proximityScore n = 40) := by
  refine ⟨proximityScore_eq_sum n, proximityScore_le n,
    fun h => proximityScore_gt_of_two_le h, fun h => ?_⟩
  subst h
  norm_num [proximityScore, List.range, List.range.loop]

/-- Witness for C4_amended: the bound is strict at length 2 and tight at
length 1. -/
theorem C4_witness : 40 < proximityScore 2 ∧ proximityScore 1 = 40 :=
  ⟨(C4_amended 2).2.2.1 (by norm_num), (C4_amended 1).2.2.2 rfl⟩

/-- Claim C5 (counterexample): two single-node chains tie at importance 40
on `gTie`, yet `identify_core_chains` ranks `["b"]` before `["a"]` — the
enumeration order, not the lexicographically smaller chain, wins the tie. -/
theorem C5_counterexample :
    calculate_chain_importance ["b"] gTie = calculate_chain_importance ["a"] gTie ∧
    identify_core_chains gTie = some [["b"], ["a"]] ∧
    ("a" : String).data < ("b" : String).data := by
  refine ⟨?_, chains_gTie, by decide⟩
  rw [importance_b, importance_a]

/-- Claim C5 (amended): the Python `sort(reverse=True, key=score)` is stable,
so chains with equal importance keep their enumeration order: filtering the
sorted list to any fixed score gives exactly the enumeration-ordered
entries of that score. -/
theorem C5_amended (l : List (ℚ × List String)) (s : ℚ) :
    (sortByScoreDesc l).filter (fun p => decide (p.1 = s)) =
      l.filter (fun p => decide (p.1 = s)) := by
  induction l with
  | nil => rfl
  | cons x xs ih =>
    show (insertDesc x (sortByScoreDesc xs)).filter _ = _
    by_cases hx : x.1 = s
    · rw [insertDesc_filter_eq x s hx (sortByScoreDesc xs), ih]
      simp [List.filter_cons, hx]
    · rw [insertDesc_filter_ne x s hx (sortByScoreDesc xs), ih]
      simp [List.filter_cons, hx]

/-- Claim C6 (counterexample): on the Scenario A graph the generated level
has exactly 1 challenge — far below the claimed 3-challenge minimum — and
the chain is emitted rather than omitted. -/
theorem C6_counterexample :
    (generate_levels gA 10 (fun _ => 0)).map (fun ls => ls.map (fun l => l.challenges.length))
      = some [1] := by
  rw [gen_gA]
  rfl

/-- Claim C6 (amended): `generate_levels` has no fallback or skipping
logic: it emits exactly one level per ranked chain (up to `max_levels`,
none omitted) and each level carries exactly one challenge per selected
type, even when fewer than 3 types were selected. -/
theorem C6_amended (g : CallGraph) (n : Nat) (r : Nat → Nat)
    (core : List (List String)) (ls : List Level)
    (hcore : identify_core_chains g = some core)
    (h : generate_levels g n r = some ls) :
    ls.length = min n core.length ∧
    ∀ lvl ∈ ls, select_challenge_types lvl.call_chain lvl.difficulty g =
      some (lvl.challenges.map (fun c => c.ctype)) := by
  unfold generate_levels at h
  rw [hcore] at h
  dsimp only [Option.bind] at h
  obtain ⟨hlen, htypes⟩ := buildLevels_sound g r (core.take n) 0 none ls h
  exact ⟨by rw [hlen, List.length_take], htypes⟩

/-- Witness for C6_amended on the Scenario A graph. -/
theorem C6_witness :
    ([levelF (fun _ => 0)].length = min 10 [["f"]].length ∧
      ∀ lvl ∈ [levelF (fun _ => 0)],
        select_challenge_types lvl.call_chain lvl.difficulty gA =
          some (lvl.challenges.map (fun c => c.ctype))) :=
  C6_amended gA 10 (fun _ => 0) [["f"]] [levelF (fun _ => 0)] chains_gA
    (gen_gA (fun _ => 0))

/-- Claim C7: `calculate_difficulty` computes the capped four-term score —
`min(20, 4*len) + min(30, 2*mean complexity) + min(25, abstraction points)
+ min(25, 2*total dependency count)` — and maps it to TUTORIAL iff the
score is below 20, BASIC iff in [20,40), INTERMEDIATE iff in [40,60),
ADVANCED iff in [60,80), and EXPERT otherwise, for every chain whose nodes
resolve in the graph and carry the `depends_on` collection. -/
theorem C7_thresholds (chain : List String) (g : CallGraph) (ns : List CodeNode)
    (hchain : chain ≠ []) (hns : chainNodes g chain = some ns)
    (hdep : ∀ n ∈ ns, n.depends_on ≠ none) :
    (calculate_difficulty chain g = some .TUTORIAL ↔ difficultyScoreSpec ns < 20) ∧
    (calculate_difficulty chain g = some .BASIC ↔
      20 ≤ difficultyScoreSpec ns ∧ difficultyScoreSpec ns < 40) ∧
    (calculate_difficulty chain g = some .INTERMEDIATE ↔
      40 ≤ difficultyScoreSpec ns ∧ difficultyScoreSpec ns < 60) ∧
    (calculate_difficulty chain g = some .ADVANCED ↔
      60 ≤ difficultyScoreSpec ns ∧ difficultyScoreSpec ns < 80) ∧
    (calculate_difficulty chain g = some .EXPERT ↔ 80 ≤ difficultyScoreSpec ns) := by
  rw [calculate_difficulty_eq_spec chain g ns hchain hns hdep]
  simp only [Option.some_inj]
  exact difficultyFromScore_iff (difficultyScoreSpec ns)

/-- Witness for C7_thresholds at the Scenario A graph: score 4, TUTORIAL. -/
theorem C7_witness : calculate_difficulty ["f"] gA = some .TUTORIAL :=
  ((C7_thresholds ["f"] gA [nodeF] (by decide) (by decide) (by decide)).1).mpr
    (by norm_num [difficultyScoreSpec, nonDepScore, abstractionSpec, nodeF])

/-- Claim C8: a single-node chain whose node has no calls, no decorators,
is neither async nor generator, and whose complexity and dependency counts
keep the difficulty score below 20, is classified TUTORIAL and gets exactly
the MULTIPLE_CHOICE challenge type (no CODE_TRACING, since the chain length
1 is below 3). -/
theorem C8_scenarioA (g : CallGraph) (fid : String) (node : CodeNode) (depl : List String)
    (hg : g.getNode fid = some node) (_hcalls : node.calls = [])
    (hdec : node.decorators = []) (hasync : node.is_async = false)
    (hgen : node.is_generator = false) (hdeps : node.depends_on = some depl)
    (hlow : 2 * (node.complexity : ℚ) + 2 * (depl.length : ℚ) < 16) :
    calculate_difficulty [fid] g = some .TUTORIAL ∧
    select_challenge_types [fid] .TUTORIAL g = some [.MULTIPLE_CHOICE] := by
  have hns : chainNodes g [fid] = some [node] := by
    rw [chainNodes, List.mapM_cons, hg]
    rfl
  have hscore : difficultyScoreSpec [node] < 20 := by
    have he : difficultyScoreSpec [node] =
        min 20 4 + min 30 (2 * (node.complexity : ℚ)) + min 25 0
          + min 25 (2 * (depl.length : ℚ)) := by
      unfold difficultyScoreSpec nonDepScore abstractionSpec
      simp [hdec, hasync, hgen, hdeps]
    rw [he]
    have h1 : min (30:ℚ) (2 * (node.complexity : ℚ)) ≤ 2 * (node.complexity : ℚ) :=
      min_le_right _ _
    have h2 : min (25:ℚ) (2 * (depl.length : ℚ)) ≤ 2 * (depl.length : ℚ) :=
      min_le_right _ _
    have h3 : min (20:ℚ) 4 = 4 := by norm_num
    have h4 : min (25:ℚ) 0 = 0 := by norm_num
    linarith
  have hcle : (node.complexity : ℚ) ≤ 10 := by
    have hd0 : (0:ℚ) ≤ (depl.length : ℚ) := by positivity
    linarith
  constructor
  · rw [calculate_difficulty_eq_spec [fid] g [node] (by simp) hns (by simp [hdeps])]
    rw [(difficultyFromScore_iff (difficultyScoreSpec [node])).1.mpr hscore]
  · unfold select_challenge_types
    rw [if_neg (by simp), hns]
    dsimp only
    simp [hdec, Difficulty.rank, not_lt.mpr hcle]

/-- Witness for C8_scenarioA at the Scenario A graph. -/
theorem C8_witness :
    calculate_difficulty ["f"] gA = some .TUTORIAL ∧
    select_challenge_types ["f"] .TUTORIAL gA = some [.MULTIPLE_CHOICE] :=
  C8_scenarioA gA "f" nodeF [] getNode_f rfl rfl rfl rfl rfl (by norm_num [nodeF])

/-- Claim C9: chain enumeration terminates on every graph (it is a total
function of an explicit depth budget, cyclic graphs included), and every
chain it produces is non-empty, repeats no node id, and has at most
`max_depth` nodes. -/
theorem C9_enumeration (g : CallGraph) (entry : String) (d : Nat) :
    ∀ c ∈ get_call_chain g entry d, c ≠ [] ∧ c.Nodup ∧ c.length ≤ d := by
  intro c hc
  cases d with
  | zero => simp [get_call_chain] at hc
  | succ k =>
    have h := chainsFrom_sound g k [] entry (by simp) (by simp) c hc
    refine ⟨h.1, h.2.1, ?_⟩
    have := h.2.2
    simpa using this

/-- Witness for C9_enumeration on the cyclic graph where `a` and `b` call
each other. -/
theorem C9_witness :
    (["a", "b"] : List String) ≠ [] ∧ (["a", "b"] : List String).Nodup ∧
      (["a", "b"] : List String).length ≤ 5 :=
  C9_enumeration gCyc "a" 5 ["a", "b"] (by decide)

/-- Claim C10: `calculate_difficulty` reads the `depends_on` collection of
every chain node — a field the declared `CodeNode` data model does not
carry.  When every chain node carries it, the dependency term is
`min(25, 2 * total size of the collections)`; when some chain node lacks
it, the classifier fails (`none`) instead of contributing zero. -/
theorem C10_depends_on (chain : List String) (g : CallGraph) (ns : List CodeNode)
    (hchain : chain ≠ []) (hns : chainNodes g chain = some ns) :
    ((∃ n ∈ ns, n.depends_on = none) → calculate_difficulty chain g = none) ∧
    ((∀ n ∈ ns, n.depends_on ≠ none) →
      calculate_difficulty chain g = some (difficultyFromScore (nonDepScore ns +
        min 25 (2 * ((ns.map (fun n => (n.depends_on.getD []).length)).sum : ℚ))))) := by
  constructor
  · rintro ⟨n, hn, hnone⟩
    unfold calculate_difficulty
    rw [if_neg (by simpa using hchain), hns]
    dsimp only
    rw [mapM_none_of_mem ⟨n, hn, hnone⟩]
  · intro hall
    have h := calculate_difficulty_eq_spec chain g ns hchain hns hall
    rw [h]
    rfl

/-- Witness for C10_depends_on: a node declared exactly as the data model
says (no `depends_on`) makes the classifier fail. -/
theorem C10_witness : calculate_difficulty ["h"] gNoDeps = none :=
  (C10_depends_on ["h"] gNoDeps [nodeNoDeps] (by decide) (by decide)).1
    ⟨nodeNoDeps, by decide, rfl⟩
